import Mathlib

/-
Verification of the adaptive leveling and progress-tracking core of the
GRE Geometry quiz repository (files main.py, app.py, app2.py).

The embedding models:
  - the grader (evaluate_answer in all three variants),
  - the level evaluator (analyze_results),
  - the file-backed progress store (save_student_result / get_student_history),
  - the in-session per-topic progress view and the difficulty choice made by
    start_quiz, together with the end_quiz transition.

Machine reals (Python floats) are modelled by rationals; the JSON file system
is modelled as a total map from filename to the list of stored records, with
a missing file represented by the empty list, matching the code, which treats
a missing file and an empty record list identically.
-/

/-- A generated multiple-choice question as formatted by generate_questions:
prompt text, option list and the correct option. -/
structure Question where
  question : String
  options : List String
  correct_answer : String
deriving DecidableEq

/-- Grader of main.py (GeometryQuizApp.evaluate_answer): the submitted answer
is compared to the correct option with string equality. -/
def evaluate_answer (q : Question) (user_answer : String) : Bool :=
  user_answer == q.correct_answer

/-- Grader of app.py (GREGeometryQuizApp.evaluate_answer), textually the same
comparison as in main.py. -/
def evaluate_answer_app (q : Question) (user_answer : String) : Bool :=
  user_answer == q.correct_answer

/-- Grader of app2.py (GeometryQuizApp.evaluate_answer), textually the same
comparison as in main.py. -/
def evaluate_answer_app2 (q : Question) (user_answer : String) : Bool :=
  user_answer == q.correct_answer

/-- The dictionary returned by analyze_results in main.py and app2.py (and the
TopicAnalysis model of app.py): topic, counts, accuracy percentage, tier level
and reasoning text. -/
structure Analysis where
  topic : String
  correct_count : Nat
  total_count : Nat
  accuracy : ℚ
  level : String
  reasoning : String
deriving DecidableEq

/-- Level evaluator (analyze_results, identical in the three variants):
correct_count is the number of true outcomes, total_count the number of
outcomes, accuracy is correct/total*100 when total is positive and 0
otherwise, and the tier is chosen by the if-chain on accuracy with
thresholds 60 and 85. -/
def analyze_results (results : List Bool) (topic : String) : Analysis :=
  let correct_count := results.count true
  let total_count := results.length
  let accuracy : ℚ :=
    if 0 < total_count then (correct_count : ℚ) / (total_count : ℚ) * 100 else 0
  if accuracy < 60 then
    { topic := topic, correct_count := correct_count, total_count := total_count,
      accuracy := accuracy, level := "Beginner",
      reasoning := "Needs more practice with fundamental concepts" }
  else if accuracy < 85 then
    { topic := topic, correct_count := correct_count, total_count := total_count,
      accuracy := accuracy, level := "Intermediate",
      reasoning := "Good understanding but room for improvement" }
  else
    { topic := topic, correct_count := correct_count, total_count := total_count,
      accuracy := accuracy, level := "Advanced",
      reasoning := "Excellent mastery of the topic" }

/-- A timestamp, standing for a Python datetime value at the precision that
datetime.isoformat renders. -/
structure Timestamp where
  year : Nat
  month : Nat
  day : Nat
  hour : Nat
  minute : Nat
  second : Nat
  microsecond : Nat
deriving DecidableEq

/-- Zero-pad a natural number to two digits. -/
def pad2 (n : Nat) : String :=
  if n < 10 then "0" ++ toString n else toString n

/-- Zero-pad a natural number to four digits. -/
def pad4 (n : Nat) : String :=
  if n < 10 then "000" ++ toString n
  else if n < 100 then "00" ++ toString n
  else if n < 1000 then "0" ++ toString n
  else toString n

/-- Zero-pad a natural number to six digits. -/
def pad6 (n : Nat) : String :=
  if n < 10 then "00000" ++ toString n
  else if n < 100 then "0000" ++ toString n
  else if n < 1000 then "000" ++ toString n
  else if n < 10000 then "00" ++ toString n
  else if n < 100000 then "0" ++ toString n
  else toString n

/-- ISO-8601 rendering of a timestamp as produced by datetime.isoformat:
the fractional part is appended only when the microsecond field is nonzero. -/
def isoformat (t : Timestamp) : String :=
  let base := pad4 t.year ++ "-" ++ pad2 t.month ++ "-" ++ pad2 t.day ++ "T"
    ++ pad2 t.hour ++ ":" ++ pad2 t.minute ++ ":" ++ pad2 t.second
  if t.microsecond = 0 then base else base ++ "." ++ pad6 t.microsecond

/-- The StudentQuizResult pydantic model of main.py. -/
structure StudentQuizResult where
  student_name : String
  timestamp : Timestamp
  topic : String
  accuracy : ℚ
  level : String
  correct_count : Nat
  total_count : Nat
deriving DecidableEq

/-- The shape of one persisted record as written by save_student_result:
the same fields with the timestamp rendered by isoformat. -/
structure StoredRecord where
  student_name : String
  timestamp : String
  topic : String
  accuracy : ℚ
  level : String
  correct_count : Nat
  total_count : Nat
deriving DecidableEq

/-- Serialization of a StudentQuizResult into the dictionary appended to the
JSON file by save_student_result. -/
def serialize_result (r : StudentQuizResult) : StoredRecord :=
  { student_name := r.student_name
    timestamp := isoformat r.timestamp
    topic := r.topic
    accuracy := r.accuracy
    level := r.level
    correct_count := r.correct_count
    total_count := r.total_count }

/-- The filesystem-safe key built from a student name in save_student_result
and get_student_history: lower-case the name, then replace each space by an
underscore. -/
def storage_key (name : String) : String :=
  ⟨(name.data.map Char.toLower).map (fun c => if c = ' ' then '_' else c)⟩

/-- The per-student results filename used by both save_student_result and
get_student_history. -/
def results_filename (name : String) : String :=
  "student_results/" ++ storage_key name ++ "_results.json"

/-- The JSON file store: a map from filename to the list of records in that
file. A missing file is the empty list, matching the code, which reads a
missing file as an empty record list. -/
def Store : Type := String → List StoredRecord

/-- The store before any result has been saved. -/
def empty_store : Store := fun _ => []

/-- Durable append (save_student_result of main.py): read the existing records
of the file named after the student, append the serialized record, and write
the file back. -/
def save_student_result (store : Store) (r : StudentQuizResult) : Store :=
  let filename := results_filename r.student_name
  let existing_results := store filename
  fun x => if x = filename then existing_results ++ [serialize_result r] else store x

/-- History read (get_student_history of main.py): the contents of the file
named after the student, empty when the file does not exist. -/
def get_student_history (store : Store) (student_name : String) : List StoredRecord :=
  store (results_filename student_name)

/-- The in-session per-topic view st.session_state.progress_data of main.py:
a map from topic to the analysis of the last completed quiz on that topic. -/
def ProgressData : Type := String → Option Analysis

/-- The progress view right after initialize_session_state in a fresh session:
an empty dictionary. It is not populated from the durable store. -/
def initial_progress_data : ProgressData := fun _ => none

/-- The difficulty chosen by start_quiz:
progress_data.get(topic, dict()).get(quoted level, quoted Beginner). -/
def next_quiz_level (pd : ProgressData) (topic : String) : String :=
  match pd topic with
  | some a => a.level
  | none => "Beginner"

/-- The progress_data update performed by end_quiz: the analysis of the
finished quiz is stored under its topic. -/
def end_quiz_update (pd : ProgressData) (topic : String) (results : List Bool) : ProgressData :=
  fun x => if x = topic then some (analyze_results results topic) else pd x

/-- The StudentQuizResult built by end_quiz from the analysis dictionary. -/
def mk_student_result (name : String) (ts : Timestamp) (a : Analysis) : StudentQuizResult :=
  { student_name := name
    timestamp := ts
    topic := a.topic
    accuracy := a.accuracy
    level := a.level
    correct_count := a.correct_count
    total_count := a.total_count }

/-- The end_quiz transition of main.py: analyze the accumulated outcomes,
store the analysis in progress_data under the current topic, and durably
append the corresponding StudentQuizResult. -/
def end_quiz (store : Store) (pd : ProgressData) (student_name topic : String)
    (results : List Bool) (ts : Timestamp) : Store × ProgressData :=
  let analysis := analyze_results results topic
  (save_student_result store (mk_student_result student_name ts analysis),
   end_quiz_update pd topic results)

/-- Spec reading of the adaptive selector, stated from the contract words of
the specification: the level of the most recent record (in append order) with
the given topic in the durable history of that student, and Beginner when no
such record exists. Used to compare the specified selector with the one the
code implements. -/
def spec_next_level (store : Store) (student topic : String) : String :=
  match ((get_student_history store student).filter (fun sr => sr.topic == topic)).getLast? with
  | some sr => sr.level
  | none => "Beginner"

/-- Concrete durable record used in counterexamples: an Advanced attempt on
the topic Circles saved for student sam in an earlier session. -/
def cx_prior_result : StudentQuizResult :=
  { student_name := "sam", timestamp := ⟨2025, 1, 1, 0, 0, 0, 0⟩, topic := "Circles",
    accuracy := 90, level := "Advanced", correct_count := 9, total_count := 10 }

/-- Store holding exactly the one prior record of cx_prior_result. -/
def cx_store : Store := save_student_result empty_store cx_prior_result

/-- Concrete record saved under the name Alice, used for the key-collision
theorem. -/
def cx_alice_result : StudentQuizResult :=
  { student_name := "Alice", timestamp := ⟨2025, 1, 1, 0, 0, 0, 0⟩, topic := "Circles",
    accuracy := 80, level := "Intermediate", correct_count := 4, total_count := 5 }

/-- Concrete record saved under the name alice, used for the key-collision
theorem. -/
def cx_alice_lower_result : StudentQuizResult :=
  { student_name := "alice", timestamp := ⟨2025, 1, 2, 0, 0, 0, 0⟩, topic := "Triangles",
    accuracy := 100, level := "Advanced", correct_count := 5, total_count := 5 }

/-- Concrete question used in witnesses: four options with the first one
correct. -/
def cx_question : Question :=
  { question := "Which value", options := ["A", "B", "C", "D"], correct_answer := "A" }

/-- Fields of analyze_results that are the same in all three branches of the
if-chain: the topic, the two counts and the accuracy. -/
theorem analyze_results_fields (results : List Bool) (topic : String) :
    (analyze_results results topic).topic = topic ∧
    (analyze_results results topic).correct_count = results.count true ∧
    (analyze_results results topic).total_count = results.length ∧
    (analyze_results results topic).accuracy =
      (if 0 < results.length then (results.count true : ℚ) / (results.length : ℚ) * 100
       else 0) := by
  simp only [analyze_results]
  by_cases h1 :
      (if 0 < results.length then (results.count true : ℚ) / (results.length : ℚ) * 100
       else 0) < 60
  · rw [if_pos h1]
    exact ⟨rfl, rfl, rfl, rfl⟩
  · by_cases h2 :
        (if 0 < results.length then (results.count true : ℚ) / (results.length : ℚ) * 100
         else 0) < 85
    · rw [if_neg h1, if_pos h2]
      exact ⟨rfl, rfl, rfl, rfl⟩
    · rw [if_neg h1, if_neg h2]
      exact ⟨rfl, rfl, rfl, rfl⟩

/-- Case analysis of the tier chosen by analyze_results: exactly the branch
of the if-chain whose accuracy bracket holds is taken. -/
theorem analyze_results_cases (results : List Bool) (topic : String) :
    ((analyze_results results topic).accuracy < 60 ∧
      (analyze_results results topic).level = "Beginner" ∧
      (analyze_results results topic).reasoning
        = "Needs more practice with fundamental concepts") ∨
    (60 ≤ (analyze_results results topic).accuracy ∧
      (analyze_results results topic).accuracy < 85 ∧
      (analyze_results results topic).level = "Intermediate" ∧
      (analyze_results results topic).reasoning
        = "Good understanding but room for improvement") ∨
    (85 ≤ (analyze_results results topic).accuracy ∧
      (analyze_results results topic).level = "Advanced" ∧
      (analyze_results results topic).reasoning
        = "Excellent mastery of the topic") := by
  simp only [analyze_results]
  by_cases h1 :
      (if 0 < results.length then (results.count true : ℚ) / (results.length : ℚ) * 100
       else 0) < 60
  · rw [if_pos h1]
    exact Or.inl ⟨h1, rfl, rfl⟩
  · by_cases h2 :
        (if 0 < results.length then (results.count true : ℚ) / (results.length : ℚ) * 100
         else 0) < 85
    · rw [if_neg h1, if_pos h2]
      exact Or.inr (Or.inl ⟨le_of_not_lt h1, h2, rfl, rfl⟩)
    · rw [if_neg h1, if_neg h2]
      exact Or.inr (Or.inr ⟨le_of_not_lt h2, rfl, rfl⟩)

/-- History after a save, as a list equation shared by several proofs. -/
theorem get_history_after_save (store : Store) (r : StudentQuizResult) :
    get_student_history (save_student_result store r) r.student_name
      = get_student_history store r.student_name ++ [serialize_result r] := by
  simp [get_student_history, save_student_result]

/-- C4: on the empty outcome list analyze_results yields accuracy 0 and the
Beginner tier with its reasoning text, treating the empty quiz as the defined
zero-accuracy edge case. -/
theorem analyze_results_empty (topic : String) :
    (analyze_results [] topic).accuracy = 0 ∧
    (analyze_results [] topic).level = "Beginner" ∧
    (analyze_results [] topic).reasoning
      = "Needs more practice with fundamental concepts" ∧
    (analyze_results [] topic).correct_count = 0 ∧
    (analyze_results [] topic).total_count = 0 := by
  refine ⟨rfl, ?_, ?_, rfl, rfl⟩ <;>
    norm_num [analyze_results]

/-- C6: the grader returns true exactly when the submitted option equals the
correct option of the question, and a submitted option that is not among the
options of the question is graded simply incorrect (the grader is a total
function with no failure path and, being pure, has no side effects). -/
theorem evaluate_answer_spec (q : Question) (a : String) :
    (evaluate_answer q a = true ↔ a = q.correct_answer) ∧
    (a ∉ q.options → q.correct_answer ∈ q.options → evaluate_answer q a = false) := by
  constructor
  · simp [evaluate_answer]
  · intro hnot hmem
    have hne : a ≠ q.correct_answer := fun he => hnot (he ▸ hmem)
    simp [evaluate_answer, hne]

/-- Witness for C6 at a concrete question and a submitted option outside the
option list. -/
theorem evaluate_answer_spec_witness :
    (evaluate_answer cx_question "E" = true ↔ "E" = cx_question.correct_answer) ∧
    evaluate_answer cx_question "E" = false :=
  ⟨(evaluate_answer_spec cx_question "E").1,
   (evaluate_answer_spec cx_question "E").2 (by decide) (by decide)⟩

/-- C9: reading the history of a student whose results file does not exist
(modelled as holding no records) returns the empty list; the read is a total
function, so a missing history is never an error. -/
theorem get_student_history_missing (store : Store) (name : String)
    (h : store (results_filename name) = []) :
    get_student_history store name = [] := h

/-- Witness for C9 on the empty store. -/
theorem get_student_history_missing_witness :
    empty_store (results_filename "bob") = [] ∧
    get_student_history empty_store "bob" = [] :=
  ⟨rfl, get_student_history_missing empty_store "bob" rfl⟩

/-- C3: appending one result and re-reading the history of that student gives
exactly the previous history with the serialized record at the end, so the
length grows by one, the last element is the new record, and all previous
records are preserved in order. -/
theorem save_then_history_appends (store : Store) (r : StudentQuizResult) :
    get_student_history (save_student_result store r) r.student_name
      = get_student_history store r.student_name ++ [serialize_result r] ∧
    (get_student_history (save_student_result store r) r.student_name).length
      = (get_student_history store r.student_name).length + 1 ∧
    (get_student_history (save_student_result store r) r.student_name).getLast?
      = some (serialize_result r) := by
  have h := get_history_after_save store r
  refine ⟨h, ?_, ?_⟩
  · rw [h]
    simp
  · rw [h]
    simp

/-- C8: the record read back from the store after a save equals the
serialization of the saved StudentQuizResult, and that serialization agrees
with the original field for field, the timestamp being rendered through
isoformat. -/
theorem serialize_round_trip (store : Store) (r : StudentQuizResult) :
    (get_student_history (save_student_result store r) r.student_name).getLast?
      = some (serialize_result r) ∧
    (serialize_result r).student_name = r.student_name ∧
    (serialize_result r).timestamp = isoformat r.timestamp ∧
    (serialize_result r).topic = r.topic ∧
    (serialize_result r).accuracy = r.accuracy ∧
    (serialize_result r).level = r.level ∧
    (serialize_result r).correct_count = r.correct_count ∧
    (serialize_result r).total_count = r.total_count := by
  refine ⟨?_, rfl, rfl, rfl, rfl, rfl, rfl, rfl⟩
  rw [get_history_after_save store r]
  simp

/-- C10: the storage key is not injective: the distinct names Alice and alice
share one results file, and after one save under each name both reads return
the single merged two-record history, so per-student isolation fails for this
pair. -/
theorem storage_key_collision :
    "Alice" ≠ "alice" ∧
    results_filename "Alice" = results_filename "alice" ∧
    get_student_history
        (save_student_result (save_student_result empty_store cx_alice_result)
          cx_alice_lower_result) "Alice"
      = [serialize_result cx_alice_result, serialize_result cx_alice_lower_result] ∧
    get_student_history
        (save_student_result (save_student_result empty_store cx_alice_result)
          cx_alice_lower_result) "alice"
      = [serialize_result cx_alice_result, serialize_result cx_alice_lower_result] := by
  refine ⟨by decide, by decide, by decide, by decide⟩

/-- C7 counterexample: the claim that some input distinguishes the grading of
the variants is false; no question and submitted option make any two of the
three graders disagree. -/
theorem graders_never_disagree :
    ¬ ∃ q a, (evaluate_answer_app q a ≠ evaluate_answer q a ∨
              evaluate_answer_app2 q a ≠ evaluate_answer q a ∨
              evaluate_answer_app2 q a ≠ evaluate_answer_app q a) := by
  rintro ⟨q, a, h | h | h⟩ <;> exact h rfl

/-- C7 amended: the grading equality check is identical in the three variants
and is case-sensitive in each of them: all three return true exactly when the
submitted option equals the correct option, and an option differing from the
correct one only in letter case is graded incorrect by every variant. -/
theorem graders_identical_case_sensitive :
    (∀ q a, evaluate_answer_app q a = evaluate_answer q a ∧
            evaluate_answer_app2 q a = evaluate_answer q a ∧
            (evaluate_answer q a = true ↔ a = q.correct_answer)) ∧
    evaluate_answer ⟨"Q", ["a", "b"], "a"⟩ "A" = false ∧
    evaluate_answer_app ⟨"Q", ["a", "b"], "a"⟩ "A" = false ∧
    evaluate_answer_app2 ⟨"Q", ["a", "b"], "a"⟩ "A" = false := by
  refine ⟨fun q a => ⟨rfl, rfl, ?_⟩, by decide, by decide, by decide⟩
  simp [evaluate_answer]

/-- C1: for a nonempty outcome list the accuracy is 100 * correct / total and
the tier and reasoning follow the strict thresholds of the if-chain: below 60
Beginner, from 60 up to below 85 Intermediate, from 85 Advanced; the three
brackets cover every accuracy value and are pairwise disjoint, so each
accuracy maps to exactly one tier. -/
theorem analyze_results_tiering (results : List Bool) (topic : String)
    (h : 0 < results.length) :
    (analyze_results results topic).accuracy
      = (results.count true : ℚ) / (results.length : ℚ) * 100 ∧
    ((analyze_results results topic).accuracy < 60 →
      (analyze_results results topic).level = "Beginner" ∧
      (analyze_results results topic).reasoning
        = "Needs more practice with fundamental concepts") ∧
    (60 ≤ (analyze_results results topic).accuracy →
      (analyze_results results topic).accuracy < 85 →
      (analyze_results results topic).level = "Intermediate" ∧
      (analyze_results results topic).reasoning
        = "Good understanding but room for improvement") ∧
    (85 ≤ (analyze_results results topic).accuracy →
      (analyze_results results topic).level = "Advanced" ∧
      (analyze_results results topic).reasoning
        = "Excellent mastery of the topic") ∧
    ((analyze_results results topic).accuracy < 60 ∨
      (60 ≤ (analyze_results results topic).accuracy ∧
        (analyze_results results topic).accuracy < 85) ∨
      85 ≤ (analyze_results results topic).accuracy) ∧
    ¬((analyze_results results topic).accuracy < 60 ∧
        60 ≤ (analyze_results results topic).accuracy) ∧
    ¬((analyze_results results topic).accuracy < 85 ∧
        85 ≤ (analyze_results results topic).accuracy) := by
  have hacc := (analyze_results_fields results topic).2.2.2
  rw [if_pos h] at hacc
  have hcases := analyze_results_cases results topic
  refine ⟨hacc, ?_, ?_, ?_, ?_, ?_, ?_⟩
  · intro h1
    rcases hcases with ⟨_, hl, hr⟩ | ⟨h2, _, _, _⟩ | ⟨h2, _, _⟩
    · exact ⟨hl, hr⟩
    · exact absurd h1 (not_lt.mpr h2)
    · exact absurd h1 (not_lt.mpr (by linarith))
  · intro h1 h2
    rcases hcases with ⟨h3, _, _⟩ | ⟨_, _, hl, hr⟩ | ⟨h3, _, _⟩
    · exact absurd h3 (not_lt.mpr h1)
    · exact ⟨hl, hr⟩
    · exact absurd h2 (not_lt.mpr h3)
  · intro h1
    rcases hcases with ⟨h3, _, _⟩ | ⟨_, h3, _, _⟩ | ⟨_, hl, hr⟩
    · exact absurd h3 (not_lt.mpr (by linarith))
    · exact absurd h3 (not_lt.mpr h1)
    · exact ⟨hl, hr⟩
  · rcases hcases with ⟨h3, _, _⟩ | ⟨h3, h4, _, _⟩ | ⟨h3, _, _⟩
    · exact Or.inl h3
    · exact Or.inr (Or.inl ⟨h3, h4⟩)
    · exact Or.inr (Or.inr h3)
  · rintro ⟨ha, hb⟩
    exact absurd ha (not_lt.mpr hb)
  · rintro ⟨ha, hb⟩
    exact absurd ha (not_lt.mpr hb)

/-- Witness for C1 on the five-outcome quiz with three correct answers, whose
accuracy is exactly the lower Intermediate boundary 60. -/
theorem analyze_results_tiering_witness :
    0 < ([true, true, true, false, false] : List Bool).length ∧
    ((analyze_results [true, true, true, false, false] "Circles").accuracy
      = (([true, true, true, false, false] : List Bool).count true : ℚ)
          / (([true, true, true, false, false] : List Bool).length : ℚ) * 100 ∧
    ((analyze_results [true, true, true, false, false] "Circles").accuracy < 60 →
      (analyze_results [true, true, true, false, false] "Circles").level = "Beginner" ∧
      (analyze_results [true, true, true, false, false] "Circles").reasoning
        = "Needs more practice with fundamental concepts") ∧
    (60 ≤ (analyze_results [true, true, true, false, false] "Circles").accuracy →
      (analyze_results [true, true, true, false, false] "Circles").accuracy < 85 →
      (analyze_results [true, true, true, false, false] "Circles").level = "Intermediate" ∧
      (analyze_results [true, true, true, false, false] "Circles").reasoning
        = "Good understanding but room for improvement") ∧
    (85 ≤ (analyze_results [true, true, true, false, false] "Circles").accuracy →
      (analyze_results [true, true, true, false, false] "Circles").level = "Advanced" ∧
      (analyze_results [true, true, true, false, false] "Circles").reasoning
        = "Excellent mastery of the topic") ∧
    ((analyze_results [true, true, true, false, false] "Circles").accuracy < 60 ∨
      (60 ≤ (analyze_results [true, true, true, false, false] "Circles").accuracy ∧
        (analyze_results [true, true, true, false, false] "Circles").accuracy < 85) ∨
      85 ≤ (analyze_results [true, true, true, false, false] "Circles").accuracy) ∧
    ¬((analyze_results [true, true, true, false, false] "Circles").accuracy < 60 ∧
        60 ≤ (analyze_results [true, true, true, false, false] "Circles").accuracy) ∧
    ¬((analyze_results [true, true, true, false, false] "Circles").accuracy < 85 ∧
        85 ≤ (analyze_results [true, true, true, false, false] "Circles").accuracy)) :=
  ⟨by decide,
   analyze_results_tiering [true, true, true, false, false] "Circles" (by decide)⟩

/-- C5: for every outcome list, correct_count counts the true outcomes and is
at most total_count, the accuracy lies between 0 and 100, and the accuracy is
zero exactly when the total count or the correct count is zero. -/
theorem analyze_results_invariants (results : List Bool) (topic : String) :
    (analyze_results results topic).correct_count = results.count true ∧
    (analyze_results results topic).total_count = results.length ∧
    (analyze_results results topic).correct_count
      ≤ (analyze_results results topic).total_count ∧
    0 ≤ (analyze_results results topic).accuracy ∧
    (analyze_results results topic).accuracy ≤ 100 ∧
    ((analyze_results results topic).accuracy = 0 ↔
      ((analyze_results results topic).total_count = 0 ∨
        (analyze_results results topic).correct_count = 0)) := by
  obtain ⟨-, hc, ht, hacc⟩ := analyze_results_fields results topic
  have hcount : results.count true ≤ results.length := List.count_le_length true results
  refine ⟨hc, ht, ?_, ?_, ?_, ?_⟩
  · rw [hc, ht]
    exact hcount
  · rw [hacc]
    split
    · positivity
    · exact le_refl 0
  · rw [hacc]
    split
    · rename 0 < results.length => hlen
      have hle : (results.count true : ℚ) ≤ (results.length : ℚ) := by
        exact_mod_cast hcount
      have hpos : (0 : ℚ) < (results.length : ℚ) := by exact_mod_cast hlen
      have hdiv : (results.count true : ℚ) / (results.length : ℚ) ≤ 1 :=
        (div_le_one hpos).mpr hle
      nlinarith [hdiv]
    · norm_num
  · rw [hacc, hc, ht]
    by_cases hlen : 0 < results.length
    · rw [if_pos hlen]
      have hne : (results.length : ℚ) ≠ 0 := by
        exact_mod_cast Nat.pos_iff_ne_zero.mp hlen
      constructor
      · intro h0
        rcases mul_eq_zero.mp h0 with hdiv | h100
        · rcases div_eq_zero_iff.mp hdiv with hc0 | ht0
          · exact Or.inr (by exact_mod_cast hc0)
          · exact absurd ht0 hne
        · norm_num at h100
      · rintro (ht0 | hc0)
        · omega
        · rw [hc0]
          norm_num
    · rw [if_neg hlen]
      constructor
      · intro _
        left
        omega
      · intro _
        rfl

/-- C2 counterexample: a fresh session cold-starts progress_data empty and
never reads the durable history, so with one prior Advanced record on the
topic Circles in the durable store, the level chosen by start_quiz is
Beginner while the most recent durable record for that topic has level
Advanced. -/
theorem next_level_ignores_durable_history :
    spec_next_level cx_store "sam" "Circles" = "Advanced" ∧
    next_quiz_level initial_progress_data "Circles" = "Beginner" ∧
    next_quiz_level initial_progress_data "Circles"
      ≠ spec_next_level cx_store "sam" "Circles" := by
  refine ⟨by decide, rfl, by decide⟩

/-- C2 amended: the difficulty chosen by start_quiz is a pure read of the
in-session progress_data view, which is cold-started empty by
initialize_session_state and never rebuilt from the durable history: at the
start of a session it is Beginner for every topic, after end_quiz on a topic
it equals the level just computed by analyze_results for that topic, and
finishing a quiz on a different topic leaves the choice unchanged. -/
theorem next_quiz_level_session_view (store : Store) (pd : ProgressData)
    (student_name topic t2 : String) (results : List Bool) (ts : Timestamp)
    (h : t2 ≠ topic) :
    next_quiz_level initial_progress_data topic = "Beginner" ∧
    next_quiz_level (end_quiz store pd student_name topic results ts).2 topic
      = (analyze_results results topic).level ∧
    next_quiz_level (end_quiz store pd student_name t2 results ts).2 topic
      = next_quiz_level pd topic := by
  refine ⟨rfl, ?_, ?_⟩
  · simp [end_quiz, end_quiz_update, next_quiz_level]
  · simp [end_quiz, end_quiz_update, next_quiz_level, Ne.symm h]

/-- Witness for C2 amended on concrete topics Circles and Triangles. -/
theorem next_quiz_level_session_view_witness :
    ("Triangles" : String) ≠ "Circles" ∧
    (next_quiz_level initial_progress_data "Circles" = "Beginner" ∧
     next_quiz_level
         (end_quiz empty_store initial_progress_data "sam" "Circles" [true]
           ⟨2025, 1, 1, 0, 0, 0, 0⟩).2 "Circles"
       = (analyze_results [true] "Circles").level ∧
     next_quiz_level
         (end_quiz empty_store initial_progress_data "sam" "Triangles" [true]
           ⟨2025, 1, 1, 0, 0, 0, 0⟩).2 "Circles"
       = next_quiz_level initial_progress_data "Circles") :=
  ⟨by decide,
   next_quiz_level_session_view empty_store initial_progress_data "sam" "Circles"
     "Triangles" [true] ⟨2025, 1, 1, 0, 0, 0, 0⟩ (by decide)⟩
